import Mathlib

/-!
Verification of the Waitly SDK client (`src/src/index.ts`) against its
specification.  The TypeScript source is shallowly embedded: JS values are
records of the fields the code inspects, the retry loop of
`WaitlyClient.request` becomes a fuel-indexed recursion, and the per-request
cancellation registry is an explicit list of request identifiers.
-/

namespace Waitly

/-- A JavaScript value as far as the SDK inspects it: the code only ever reads
the fields `name`, `message`, `statusCode` and `details` of the errors and
parsed JSON bodies it handles.  `none` models an absent (`undefined`) field.
The extra `payload` field is an opaque residue so that distinct success bodies
stay distinguishable in the model. -/
structure JVal where
  name : Option String := none
  message : Option String := none
  statusCode : Option Nat := none
  details : Option String := none
  payload : Option Nat := none
deriving Repr, DecidableEq

/-- The JS `undefined` value in positions where the code may throw `lastError`
without ever having assigned it (modelled as an all-absent record). -/
def undefinedVal : JVal := {}

/-- The `details` field of a normalized `WaitlyError` (lines 221-277): the 400
branch passes `error.details` through, the UNKNOWN branch attaches the whole
raw error. -/
inductive WDetails where
  | fromField (d : String)
  | whole (e : JVal)
deriving Repr, DecidableEq

/-- `WaitlyError` (lines 31-36): the normalized error shape. -/
structure WaitlyError where
  code : String
  message : String
  details : Option WDetails := none
  statusCode : Option Nat := none
deriving Repr, DecidableEq

/-- JS `s || d` for an optional string: the empty string is falsy. -/
def jsOrStr (o : Option String) (d : String) : String :=
  match o with
  | none => d
  | some s => if s = "" then d else s

/-- JS `n || d` for an optional integer: `0` is falsy. -/
def jsOrInt (o : Option Int) (d : Int) : Int :=
  match o with
  | none => d
  | some n => if n = 0 then d else n

/-- `WaitlyClient.handleError` (lines 221-277), translated clause by clause.
`error.message || fallback` is `jsOrStr` (empty string falsy). -/
def handleError (e : JVal) : WaitlyError :=
  if e.statusCode = some 400 then
    { code := "VALIDATION_ERROR", message := jsOrStr e.message "Invalid request data",
      details := e.details.map WDetails.fromField, statusCode := some 400 }
  else if e.statusCode = some 401 then
    { code := "UNAUTHORIZED", message := "Invalid API key", statusCode := some 401 }
  else if e.statusCode = some 404 then
    { code := "NOT_FOUND", message := "Waitlist not found", statusCode := some 404 }
  else if e.statusCode = some 409 then
    { code := "DUPLICATE_ENTRY", message := jsOrStr e.message "Email already registered",
      statusCode := some 409 }
  else if e.statusCode = some 429 then
    { code := "RATE_LIMIT", message := "Too many requests", statusCode := some 429 }
  else if e.message = some "Request timeout" then
    { code := "TIMEOUT", message := "Request timeout", statusCode := some 0 }
  else
    { code := "UNKNOWN_ERROR", message := jsOrStr e.message "An unexpected error occurred",
      details := some (WDetails.whole e), statusCode := some (e.statusCode.getD 0) }

/-- Modelled from the spec: the normalization table of section 4.3 of the
specification, read row by row ("message indicates timeout" is the exact
message the code's timeout path produces).  Second definition, kept separate
from `handleError`, for the refinement comparison of claim C6: it returns the
`(code, statusCode)` pair the table prescribes. -/
def specNormalizeCode (e : JVal) : String × Nat :=
  if e.statusCode = some 400 then ("VALIDATION_ERROR", 400)
  else if e.statusCode = some 401 then ("UNAUTHORIZED", 401)
  else if e.statusCode = some 404 then ("NOT_FOUND", 404)
  else if e.statusCode = some 409 then ("DUPLICATE_ENTRY", 409)
  else if e.statusCode = some 429 then ("RATE_LIMIT", 429)
  else if e.message = some "Request timeout" then ("TIMEOUT", 0)
  else ("UNKNOWN_ERROR", e.statusCode.getD 0)

/-- `WaitlyConfig` (lines 6-13): the caller-supplied, partial configuration.
Optional fields model absence with `none`; numbers are modelled as integers
(floating point is outside the embedding).  Headers are an association list. -/
structure WaitlyConfig where
  waitlistId : Option String := none
  apiKey : Option String := none
  apiUrl : Option String := none
  timeout : Option Int := none
  retryAttempts : Option Int := none
  headers : Option (List (String × String)) := none
deriving Repr, DecidableEq

/-- `Required WaitlyConfig` (line 39): the fully resolved configuration. -/
structure ResolvedConfig where
  waitlistId : String
  apiKey : String
  apiUrl : String
  timeout : Int
  retryAttempts : Int
  headers : List (String × String)
deriving Repr, DecidableEq

/-- JS falsiness of an optional string: absent or empty. -/
def falsyStr : Option String → Bool
  | none => true
  | some s => s = ""

/-- The `WaitlyClient` constructor (lines 42-58): throws on falsy
`waitlistId` or `apiKey`, otherwise resolves the remaining fields with
`x || default`. -/
def resolveConfig (c : WaitlyConfig) : Except String ResolvedConfig :=
  if falsyStr c.waitlistId then .error "waitlistId is required"
  else if falsyStr c.apiKey then .error "apiKey is required"
  else .ok
    { waitlistId := c.waitlistId.getD ""
      apiKey := c.apiKey.getD ""
      apiUrl := jsOrStr c.apiUrl "https://www.gowaitly.com"
      timeout := jsOrInt c.timeout 10000
      retryAttempts := jsOrInt c.retryAttempts 3
      headers := c.headers.getD [] }

/-- The standard header object literal of `request` (lines 155-160), before
the configured extra headers are spread on top. -/
def standardHeaders (cfg : ResolvedConfig) : List (String × String) :=
  [("Content-Type", "application/json"),
   ("X-API-Key", cfg.apiKey),
   ("X-SDK-Version", "1.0.0"),
   ("X-Waitlist-ID", cfg.waitlistId)]

/-- The headers actually sent (line 160's spread `...this.config.headers`
comes last, so a configured extra header wins over a standard one). -/
def requestHeaders (cfg : ResolvedConfig) (k : String) : Option String :=
  match cfg.headers.lookup k with
  | some v => some v
  | none => (standardHeaders cfg).lookup k

/-- JS regex class `\s`, restricted to the ASCII whitespace characters. -/
def wsChar (c : Char) : Bool :=
  c == ' ' || c == '\t' || c == '\n' || c == '\r' || c == '\x0b' || c == '\x0c'

/-- The character class of the email regex of `isValidEmail` (line 280):
anything that is neither whitespace nor an at sign. -/
def charOk (c : Char) : Bool :=
  !(wsChar c) && !(c == '@')

/-- Whether a list has a dot at some position that is neither first nor last,
i.e. whether it can be split as a nonempty part, a dot, and a nonempty part. -/
def hasInnerDot (d : List Char) : Bool :=
  (List.range d.length).any fun i =>
    decide (0 < i) && decide (i + 1 < d.length) && (d.getD i ' ' == '.')

/-- `WaitlyClient.isValidEmail` (lines 279-282): a matcher for the regex
on line 280 (one or more `charOk` characters, an at sign, then a domain of
`charOk` characters containing an inner dot; since the character class itself
admits dots, the domain matches exactly when it is all `charOk` and has a dot
that is neither its first nor its last character). -/
def isValidEmail (s : List Char) : Bool :=
  match s.dropWhile charOk with
  | [] => false
  | c :: rest =>
    !(s.takeWhile charOk).isEmpty && (c == '@') && rest.all charOk && hasInnerDot rest

/-- The characters after the first at sign of a string (empty if there is
none): the "domain part" the claims speak about. -/
def afterFirstAt (s : List Char) : List Char :=
  (s.dropWhile (fun c => !(c == '@'))).tail

/-- Outcome of one `fetch` call: a response with a status and a body (`none`
models a body that is not valid JSON, so `response.json()` rejects), or a
rejection with a thrown value (network failure or abort). -/
inductive FetchResult where
  | resp (status : Nat) (body : Option JVal)
  | err (e : JVal)
deriving Repr, DecidableEq

/-- A mock transport: the `fetch` outcome for each attempt index. -/
abbrev Transport := Nat → FetchResult

/-- The error `response.json()` rejects with when the body stream was already
consumed by the first read on line 180 (fetch bodies are one-shot). -/
def bodyUsedError : JVal := { name := some "TypeError", message := some "Body is unusable" }

/-- The error `response.json()` rejects with on a malformed body. -/
def parseFailError : JVal := { name := some "SyntaxError", message := some "Unexpected end of JSON input" }

/-- `new Error('Request timeout')` thrown on line 205. -/
def timeoutThrown : JVal := { name := some "Error", message := some "Request timeout" }

/-- The object spread on line 186/189: `statusCode` set from the response
status, then every field of the parsed error body spread on top (so a
`statusCode` field inside the body wins). -/
def spreadOnStatus (status : Nat) (e : JVal) : JVal :=
  { e with statusCode := some (e.statusCode.getD status) }

/-- Line 180: `response.json().catch(() => (message fallback))` — the parsed
error body, or the fallback object when the body is not valid JSON. -/
def parsedErrBody (status : Nat) (body : Option JVal) : JVal :=
  body.getD { message := some ("HTTP " ++ toString status) }

/-- What one iteration of the retry loop decides to do after its `fetch`
settles: return a payload, fail with the timeout error, or record `e` as
`lastError` and let the `for` loop advance (with or without a backoff delay
first). -/
inductive StepPlan where
  | ret (v : JVal)
  | timeoutFail
  | next (e : JVal) (withDelay : Bool)
deriving Repr, DecidableEq

/-- The `catch` block of the retry loop (lines 200-215): an `AbortError`
throws the timeout error immediately; otherwise `lastError := e` and the loop
retries with backoff when attempts remain and `!error.statusCode` (absent or
zero status), else simply advances to the next iteration (the JS `for` loop
body just ends, so there is no delay and no early exit). -/
def catchStep (rt a : Nat) (e : JVal) : StepPlan :=
  if e.name = some "AbortError" then .timeoutFail
  else if a + 1 < rt ∧ e.statusCode.getD 0 = 0 then .next e true
  else .next e false

/-- The body of one attempt of the retry loop (lines 173-215).  A non-2xx
response parses the body once (line 180) and builds the spread error object;
a 4xx throws it, which the loop's own `catch` receives; a non-4xx failure
with attempts remaining backs off and retries; on the last attempt it falls
through to the second `response.json()` read of line 198, which rejects with
`bodyUsedError` and lands in the `catch`.  A 2xx returns the parsed body, or
lands in the `catch` with a parse error when the body is malformed. -/
def attemptStep (rt a : Nat) (res : FetchResult) : StepPlan :=
  match res with
  | .err e => catchStep rt a e
  | .resp status body =>
    if 200 ≤ status ∧ status < 300 then
      match body with
      | some v => .ret v
      | none => catchStep rt a parseFailError
    else
      let e := spreadOnStatus status (parsedErrBody status body)
      if 400 ≤ status ∧ status < 500 then catchStep rt a e
      else if a + 1 < rt then .next e true
      else catchStep rt a bodyUsedError

/-- How a call to `request` settles: a returned payload or a thrown error. -/
inductive ReqOutcome where
  | ok (v : JVal)
  | thrown (e : JVal)
deriving Repr, DecidableEq

/-- Result of a full run of `request`: the outcome (returned payload or thrown
error), how many times the transport was invoked, the backoff delays inserted
(attempt index, milliseconds), and the final cancellation registry. -/
structure RunResult where
  outcome : ReqOutcome
  fetchCalls : Nat
  delays : List (Nat × Nat)
  registry : List String
deriving Repr, DecidableEq

/-- The retry `for` loop of `request` (lines 172-218), as a recursion on the
remaining number of iterations (`fuel`); `a` is the current attempt index and
`le` the `lastError` slot.  Entered by `request` with `a = 0` and
`fuel = retryAttempts`, so `fuel = retryAttempts - a` throughout.  When the
fuel runs out the loop exits and line 218 throws `lastError` (JS `undefined`
when it was never assigned).  Every iteration deletes the request id from the
registry as soon as its `fetch` settles (lines 177 and 202), before any
terminal outcome or retry.  A backoff delay of `2^a * 1000` milliseconds
precedes a retry with delay (lines 193 and 212). -/
def requestLoop (rt : Nat) (t : Transport) (id : String) :
    Nat → Nat → Option JVal → List String → RunResult
  | _, 0, le, reg => ⟨.thrown (le.getD undefinedVal), 0, [], reg⟩
  | a, fuel + 1, _le, reg =>
    let reg' := reg.erase id
    match attemptStep rt a (t a) with
    | .ret v => ⟨.ok v, 1, [], reg'⟩
    | .timeoutFail => ⟨.thrown timeoutThrown, 1, [], reg'⟩
    | .next e true =>
      let r := requestLoop rt t id (a + 1) fuel (some e) reg'
      ⟨r.outcome, r.fetchCalls + 1, (a, 2 ^ a * 1000) :: r.delays, r.registry⟩
    | .next e false =>
      let r := requestLoop rt t id (a + 1) fuel (some e) reg'
      ⟨r.outcome, r.fetchCalls + 1, r.delays, r.registry⟩

/-- `WaitlyClient.request` (lines 140-219): registers the cancellation handle
under the generated request id (line 146) and runs the retry loop.  The loop
bound and the backoff condition both use `config.retryAttempts`; a negative
count runs zero iterations, hence `Int.toNat`. -/
def request (cfg : ResolvedConfig) (t : Transport) (id : String) (reg : List String) :
    RunResult :=
  requestLoop cfg.retryAttempts.toNat t id 0 cfg.retryAttempts.toNat none (id :: reg)

/-- `WaitlyClient.cancelAllRequests` (lines 133-136): aborts every registered
controller and clears the registry.  Only the registry state is observable in
the model. -/
def cancelAllRequests (_reg : List String) : List String := []

/-- How a public operation settles: a local validation throw before the
executor runs, a normalized API error, or a success payload. -/
inductive OpResult where
  | localError (msg : String)
  | apiError (e : WaitlyError)
  | ok (v : JVal)
deriving Repr, DecidableEq

/-- `WaitlyClient.createWaitlyEntry` (lines 65-87): requires a truthy email,
validates its format, then runs the executor and normalizes any thrown error.
The second component counts transport invocations (0 before any network
call). -/
def createWaitlyEntry (cfg : ResolvedConfig) (t : Transport) (id : String)
    (reg : List String) (email : List Char) : OpResult × Nat :=
  if email.isEmpty then (.localError "Email is required", 0)
  else if !(isValidEmail email) then (.localError "Invalid email format", 0)
  else
    let r := request cfg t id reg
    match r.outcome with
    | .ok v => (.ok v, r.fetchCalls)
    | .thrown e => (.apiError (handleError e), r.fetchCalls)

/-- `WaitlyClient.checkEmailExists` (lines 113-128): validates the email
format, then runs the executor and normalizes any thrown error.  (The
projection of the `exists` field out of the success payload is a pure
data-shape concern and is left as the raw payload here.) -/
def checkEmailExists (cfg : ResolvedConfig) (t : Transport) (id : String)
    (reg : List String) (email : List Char) : OpResult × Nat :=
  if !(isValidEmail email) then (.localError "Invalid email format", 0)
  else
    let r := request cfg t id reg
    match r.outcome with
    | .ok v => (.ok v, r.fetchCalls)
    | .thrown e => (.apiError (handleError e), r.fetchCalls)

/-! Concrete fixtures: a default resolved configuration and mock transports. -/

/-- The configuration resolved from `waitlistId = "w"`, `apiKey = "k"` and all
defaults. -/
def cfgStd : ResolvedConfig :=
  { waitlistId := "w", apiKey := "k", apiUrl := "https://www.gowaitly.com",
    timeout := 10000, retryAttempts := 3, headers := [] }

/-- Like `cfgStd` but with an extra header shadowing `X-API-Key`. -/
def cfgEvil : ResolvedConfig :=
  { cfgStd with headers := [("X-API-Key", "evil")] }

/-- Transport answering 404 with an empty JSON body on every attempt. -/
def t404 : Transport := fun _ => .resp 404 (some {})

/-- Transport answering 404 on the first attempt and 2xx afterwards. -/
def t404then200 : Transport := fun a =>
  if a = 0 then .resp 404 (some {}) else .resp 200 (some { payload := some 7 })

/-- Transport answering 500 with a JSON body on every attempt. -/
def t500 : Transport := fun _ => .resp 500 (some { message := some "boom" })

/-- Transport answering 500 on the first two attempts and 2xx afterwards. -/
def t500x2 : Transport := fun a =>
  if a < 2 then .resp 500 (some { message := some "boom" }) else .resp 200 (some { payload := some 7 })

/-- Transport that always succeeds. -/
def tOk : Transport := fun _ => .resp 200 (some { payload := some 7 })

/-- Transport that always rejects with an abort (the armed timeout fired). -/
def tAbort : Transport := fun _ => .err { name := some "AbortError" }

/-! Helper lemmas about the retry loop and the email matcher. -/

lemma requestLoop_delays_pow (rt : Nat) (t : Transport) (id : String) :
    ∀ (fuel a : Nat) (le : Option JVal) (reg : List String) (p : Nat × Nat),
      p ∈ (requestLoop rt t id a fuel le reg).delays → p.2 = 2 ^ p.1 * 1000 := by
  intro fuel
  induction fuel with
  | zero =>
    intro a le reg p hp
    simp [requestLoop] at hp
  | succ n ih =>
    intro a le reg p hp
    rcases h : attemptStep rt a (t a) with v | _ | ⟨e, b⟩
    · simp [requestLoop, h] at hp
    · simp [requestLoop, h] at hp
    · cases b
      · simp only [requestLoop, h] at hp
        exact ih (a + 1) (some e) (reg.erase id) p hp
      · simp only [requestLoop, h] at hp
        rcases List.mem_cons.mp hp with h1 | h2
        · subst h1; rfl
        · exact ih (a + 1) (some e) (reg.erase id) p h2

lemma requestLoop_registry_stable (rt : Nat) (t : Transport) (id : String) :
    ∀ (fuel a : Nat) (le : Option JVal) (reg : List String), id ∉ reg →
      (requestLoop rt t id a fuel le reg).registry = reg := by
  intro fuel
  induction fuel with
  | zero =>
    intro a le reg _
    simp [requestLoop]
  | succ n ih =>
    intro a le reg hid
    have he : reg.erase id = reg := List.erase_of_not_mem hid
    rcases h : attemptStep rt a (t a) with v | _ | ⟨e, b⟩
    · simp [requestLoop, h, he]
    · simp [requestLoop, h, he]
    · cases b
      · simp only [requestLoop, h]
        rw [he]
        exact ih (a + 1) (some e) reg hid
      · simp only [requestLoop, h]
        rw [he]
        exact ih (a + 1) (some e) reg hid

lemma request_registry_clean (cfg : ResolvedConfig) (t : Transport) (id : String)
    (reg : List String) (hid : id ∉ reg) (hr : 1 ≤ cfg.retryAttempts.toNat) :
    (request cfg t id reg).registry = reg := by
  obtain ⟨k, hk⟩ : ∃ k, cfg.retryAttempts.toNat = k + 1 :=
    ⟨cfg.retryAttempts.toNat - 1, by omega⟩
  have he : (id :: reg).erase id = reg := by simp
  unfold request
  rw [hk]
  rcases h : attemptStep (k + 1) 0 (t 0) with v | _ | ⟨e, b⟩
  · simp [requestLoop, h, he]
  · simp [requestLoop, h, he]
  · cases b
    · simp only [requestLoop, h]
      rw [he]
      exact requestLoop_registry_stable (k + 1) t id k 1 (some e) reg hid
    · simp only [requestLoop, h]
      rw [he]
      exact requestLoop_registry_stable (k + 1) t id k 1 (some e) reg hid

lemma charOk_not_ws {c : Char} (h : charOk c = true) : wsChar c = false := by
  simp only [charOk, Bool.and_eq_true, Bool.not_eq_true'] at h
  exact h.1

lemma charOk_ne_at {c : Char} (h : charOk c = true) : c ≠ '@' := by
  simp only [charOk, Bool.and_eq_true, Bool.not_eq_true', beq_eq_false_iff_ne] at h
  exact h.2

lemma isValidEmail_shape {s : List Char} (h : isValidEmail s = true) :
    ∃ l rest, s = l ++ '@' :: rest ∧ (∀ c ∈ l, charOk c = true) ∧
      (∀ c ∈ rest, charOk c = true) ∧ hasInnerDot rest = true := by
  unfold isValidEmail at h
  rcases hd : s.dropWhile charOk with _ | ⟨c, rest⟩
  · rw [hd] at h
    simp at h
  · rw [hd] at h
    simp only [Bool.and_eq_true, beq_iff_eq, List.all_eq_true] at h
    obtain ⟨⟨⟨_, hc⟩, hall⟩, hdot⟩ := h
    subst hc
    refine ⟨s.takeWhile charOk, rest, ?_, ?_, hall, hdot⟩
    · conv_lhs => rw [← List.takeWhile_append_dropWhile (p := charOk) (l := s)]
      rw [hd]
    · intro c hc
      exact List.mem_takeWhile_imp hc

lemma isValidEmail_no_ws {s : List Char} (h : isValidEmail s = true) :
    ∀ c ∈ s, wsChar c = false := by
  obtain ⟨l, rest, hs, hl, hrest, _⟩ := isValidEmail_shape h
  intro c hc
  rw [hs] at hc
  rcases List.mem_append.mp hc with h1 | h2
  · exact charOk_not_ws (hl c h1)
  · rcases List.mem_cons.mp h2 with h3 | h4
    · subst h3; rfl
    · exact charOk_not_ws (hrest c h4)

lemma isValidEmail_has_at {s : List Char} (h : isValidEmail s = true) : '@' ∈ s := by
  obtain ⟨l, rest, hs, _, _, _⟩ := isValidEmail_shape h
  rw [hs]
  simp

lemma dropWhile_to_first_at {l rest : List Char} (hl : ∀ c ∈ l, c ≠ '@') :
    (l ++ '@' :: rest).dropWhile (fun c => !(c == '@')) = '@' :: rest := by
  induction l with
  | nil => simp [List.dropWhile_cons]
  | cons a l ih =>
    have ha : a ≠ '@' := hl a (List.mem_cons_self a l)
    simp only [List.cons_append, List.dropWhile_cons]
    rw [if_pos (by simp [ha])]
    exact ih fun c hc => hl c (List.mem_cons_of_mem a hc)

lemma isValidEmail_dot_after {s : List Char} (h : isValidEmail s = true) :
    '.' ∈ afterFirstAt s := by
  obtain ⟨l, rest, hs, hl, _, hdot⟩ := isValidEmail_shape h
  have hne : ∀ c ∈ l, c ≠ '@' := fun c hc => charOk_ne_at (hl c hc)
  rw [hs]
  unfold afterFirstAt
  rw [dropWhile_to_first_at hne, List.tail_cons]
  unfold hasInnerDot at hdot
  rw [List.any_eq_true] at hdot
  obtain ⟨i, hi, hcond⟩ := hdot
  simp only [Bool.and_eq_true, decide_eq_true_eq, beq_iff_eq] at hcond
  obtain ⟨⟨h0, h1⟩, h2⟩ := hcond
  have hlt : i < rest.length := by omega
  rw [List.getD_eq_getElem rest ' ' hlt] at h2
  rw [← h2]
  exact List.getElem_mem hlt

lemma malformed_email_invalid {s : List Char}
    (h : (∃ c ∈ s, wsChar c = true) ∨ '@' ∉ s ∨ '.' ∉ afterFirstAt s) :
    isValidEmail s = false := by
  cases hv : isValidEmail s
  · rfl
  · exfalso
    rcases h with ⟨c, hc, hw⟩ | hat | hdot
    · rw [isValidEmail_no_ws hv c hc] at hw
      exact Bool.noConfusion hw
    · exact hat (isValidEmail_has_at hv)
    · exact hdot (isValidEmail_dot_after hv)

/-! Claim theorems. -/

/-- Claim C1.  The claim says a 4xx response fails immediately after exactly
one transport invocation.  The code disagrees: the 4xx error object thrown on
line 186 is caught by the same loop's own `catch` (line 200), which neither
delays nor exits, so the loop advances and the transport is invoked again.
With the default three attempts and a transport answering 404 every time, the
transport runs 3 times (with no backoff delays) before the 404 error is
thrown and normalized to NOT_FOUND; and when a 404 is followed by a 2xx the
call even succeeds. -/
theorem c1_client_error_is_retried :
    (request cfgStd t404 "rid" []).fetchCalls = 3 ∧
    (request cfgStd t404 "rid" []).outcome = .thrown { statusCode := some 404 } ∧
    (request cfgStd t404 "rid" []).delays = [] ∧
    handleError { statusCode := some 404 } =
      { code := "NOT_FOUND", message := "Waitlist not found", statusCode := some 404 } ∧
    (request cfgStd t404then200 "rid" []).outcome = .ok { payload := some 7 } ∧
    (request cfgStd t404then200 "rid" []).fetchCalls = 2 :=
  ⟨rfl, rfl, rfl, rfl, rfl, rfl⟩

/-- Claim C2 (counterexample).  A configured extra header named `X-API-Key`
replaces the standard one: the spread of `config.headers` on line 160 comes
after the standard headers, so the outgoing `X-API-Key` is the extra header's
value, not the configured `apiKey`. -/
theorem c2_extra_header_replaces_api_key :
    resolveConfig { waitlistId := some "w", apiKey := some "k",
                    headers := some [("X-API-Key", "evil")] } = .ok cfgEvil ∧
    requestHeaders cfgEvil "X-API-Key" = some "evil" ∧
    cfgEvil.apiKey = "k" ∧
    requestHeaders cfgEvil "X-API-Key" ≠ some cfgEvil.apiKey :=
  ⟨rfl, rfl, rfl, by decide⟩

/-- Claim C2 (amended).  The `X-API-Key` and `X-Waitlist-ID` keys are always
present among the outgoing headers, and they carry the configured `apiKey`
and `waitlistId` values whenever the configured extra headers do not
themselves bind those keys; an extra header with the same name replaces the
standard value. -/
theorem c2_mandatory_header_keys_present (cfg : ResolvedConfig) :
    (requestHeaders cfg "X-API-Key").isSome = true ∧
    (requestHeaders cfg "X-Waitlist-ID").isSome = true ∧
    (cfg.headers.lookup "X-API-Key" = none →
      requestHeaders cfg "X-API-Key" = some cfg.apiKey) ∧
    (cfg.headers.lookup "X-Waitlist-ID" = none →
      requestHeaders cfg "X-Waitlist-ID" = some cfg.waitlistId) := by
  refine ⟨?_, ?_, ?_, ?_⟩
  · rcases h : cfg.headers.lookup "X-API-Key" with _ | v
    · unfold requestHeaders
      rw [h]
      rfl
    · unfold requestHeaders
      rw [h]
      rfl
  · rcases h : cfg.headers.lookup "X-Waitlist-ID" with _ | v
    · unfold requestHeaders
      rw [h]
      rfl
    · unfold requestHeaders
      rw [h]
      rfl
  · intro h
    unfold requestHeaders
    rw [h]
    rfl
  · intro h
    unfold requestHeaders
    rw [h]
    rfl

/-- Witness for `c2_mandatory_header_keys_present` at the default
configuration (which binds no extra headers). -/
theorem c2_mandatory_header_keys_present_witness :
    requestHeaders cfgStd "X-API-Key" = some cfgStd.apiKey :=
  (c2_mandatory_header_keys_present cfgStd).2.2.1 rfl

/-- Claim C3.  Every backoff delay the executor ever inserts at attempt index
`a` is exactly `2 ^ a * 1000` milliseconds, i.e. `2 ^ a` seconds; and both
retriable paths (a response with status at least 500, and a network rejection
that is neither an abort nor carries a truthy `statusCode`) do insert that
delay whenever attempts remain.  The schedule is the same regardless of which
error path triggered the retry. -/
theorem c3_backoff_doubling (cfg : ResolvedConfig) (t : Transport) (id : String)
    (reg : List String) :
    (∀ p ∈ (request cfg t id reg).delays, p.2 = 2 ^ p.1 * 1000) ∧
    (∀ a status body, t a = .resp status body → 500 ≤ status →
        a + 1 < cfg.retryAttempts.toNat →
        attemptStep cfg.retryAttempts.toNat a (t a) =
          .next (spreadOnStatus status (parsedErrBody status body)) true) ∧
    (∀ a e, t a = .err e → e.name ≠ some "AbortError" → e.statusCode.getD 0 = 0 →
        a + 1 < cfg.retryAttempts.toNat →
        attemptStep cfg.retryAttempts.toNat a (t a) = .next e true) := by
  refine ⟨fun p hp => requestLoop_delays_pow _ _ _ _ _ _ _ p hp, ?_, ?_⟩
  · intro a status body ht h5 hlt
    rw [ht]
    unfold attemptStep
    have h1 : ¬(200 ≤ status ∧ status < 300) := by omega
    have h2 : ¬(400 ≤ status ∧ status < 500) := by omega
    simp [h1, h2, hlt]
  · intro a e ht hn hsc hlt
    rw [ht]
    unfold attemptStep catchStep
    simp [hn, hsc, hlt]

/-- Witness for `c3_backoff_doubling`: the spec's 500-500-2xx scenario, whose
second inserted delay (attempt index 1) is 2 seconds. -/
theorem c3_backoff_doubling_witness :
    (1, 2000) ∈ (request cfgStd t500x2 "rid" []).delays ∧ 2000 = 2 ^ 1 * 1000 :=
  ⟨by decide, (c3_backoff_doubling cfgStd t500x2 "rid" []).1 (1, 2000) (by decide)⟩

/-- Claim C4.  The claim says exhausting the retry budget raises the last
recorded failure.  On the all-500 run it does not: on the final attempt the
5xx branch neither delays nor exits, so control falls through to the second
`response.json()` read of line 198; the body stream was already consumed by
line 180, so that read rejects and the surfaced error is the body-reuse
`TypeError` (normalized UNKNOWN_ERROR with statusCode 0), not the recorded
500 error. -/
theorem c4_exhaustion_raises_body_reuse_error :
    (request cfgStd t500 "rid" []).outcome = .thrown bodyUsedError ∧
    (request cfgStd t500 "rid" []).fetchCalls = 3 ∧
    (request cfgStd t500 "rid" []).delays = [(0, 1000), (1, 2000)] ∧
    bodyUsedError.statusCode = none ∧
    handleError bodyUsedError =
      { code := "UNKNOWN_ERROR", message := "Body is unusable",
        details := some (.whole bodyUsedError), statusCode := some 0 } :=
  ⟨rfl, rfl, rfl, rfl, rfl⟩

/-- Claim C5.  When the transport's first attempt rejects with an
`AbortError` (the armed per-request timeout fired), the call fails
immediately: exactly one transport invocation, no delays, and the thrown
`Request timeout` error normalizes to TIMEOUT with statusCode 0. -/
theorem c5_timeout_immediate (cfg : ResolvedConfig) (t : Transport) (id : String)
    (reg : List String) (e : JVal) (h1 : t 0 = .err e)
    (h2 : e.name = some "AbortError") (h3 : 1 ≤ cfg.retryAttempts.toNat) :
    (request cfg t id reg).outcome = .thrown timeoutThrown ∧
    (request cfg t id reg).fetchCalls = 1 ∧
    (request cfg t id reg).delays = [] ∧
    handleError timeoutThrown =
      { code := "TIMEOUT", message := "Request timeout", statusCode := some 0 } := by
  obtain ⟨k, hk⟩ : ∃ k, cfg.retryAttempts.toNat = k + 1 :=
    ⟨cfg.retryAttempts.toNat - 1, by omega⟩
  have hstep : attemptStep cfg.retryAttempts.toNat 0 (t 0) = .timeoutFail := by
    rw [h1]
    unfold attemptStep catchStep
    simp [h2]
  unfold request
  rw [hk] at hstep ⊢
  refine ⟨?_, ?_, ?_, by decide⟩ <;> simp [requestLoop, hstep]

/-- Witness for `c5_timeout_immediate`: a transport that always aborts. -/
theorem c5_timeout_immediate_witness :
    (request cfgStd tAbort "rid" []).outcome = .thrown timeoutThrown ∧
    (request cfgStd tAbort "rid" []).fetchCalls = 1 :=
  ⟨(c5_timeout_immediate cfgStd tAbort "rid" [] { name := some "AbortError" }
      rfl rfl (by decide)).1,
   (c5_timeout_immediate cfgStd tAbort "rid" [] { name := some "AbortError" }
      rfl rfl (by decide)).2.1⟩

/-- Claim C6.  The error normalizer is a pure total mapping that agrees, on
every input, with the specification's normalization table (`specNormalizeCode`)
on both the produced code and the produced status code. -/
theorem c6_normalizer_matches_spec_table (e : JVal) :
    (handleError e).code = (specNormalizeCode e).1 ∧
    (handleError e).statusCode = some (specNormalizeCode e).2 := by
  unfold handleError specNormalizeCode
  constructor <;> (split_ifs <;> rfl)

/-- Claim C7.  For every malformed email (one containing a whitespace
character, or lacking an at sign, or lacking a dot after its first at sign),
both `createWaitlyEntry` and `checkEmailExists` fail with a local validation
error and the transport is never invoked. -/
theorem c7_malformed_email_no_network (cfg : ResolvedConfig) (t : Transport)
    (id : String) (reg : List String) (email : List Char)
    (h : (∃ c ∈ email, wsChar c = true) ∨ '@' ∉ email ∨ '.' ∉ afterFirstAt email) :
    ((createWaitlyEntry cfg t id reg email).2 = 0 ∧
      ∃ m, (createWaitlyEntry cfg t id reg email).1 = .localError m) ∧
    ((checkEmailExists cfg t id reg email).2 = 0 ∧
      ∃ m, (checkEmailExists cfg t id reg email).1 = .localError m) := by
  have hv := malformed_email_invalid h
  constructor
  · by_cases he : email.isEmpty
    · simp [createWaitlyEntry, he]
    · simp [createWaitlyEntry, he, hv]
  · simp [checkEmailExists, hv]

/-- Witness for `c7_malformed_email_no_network`: the email `bad` has no at
sign, and neither operation invokes the transport on it. -/
theorem c7_malformed_email_no_network_witness :
    (createWaitlyEntry cfgStd tOk "rid" [] ['b', 'a', 'd']).2 = 0 ∧
    (checkEmailExists cfgStd tOk "rid" [] ['b', 'a', 'd']).2 = 0 :=
  ⟨(c7_malformed_email_no_network cfgStd tOk "rid" [] ['b', 'a', 'd']
      (Or.inr (Or.inl (by decide)))).1.1,
   (c7_malformed_email_no_network cfgStd tOk "rid" [] ['b', 'a', 'd']
      (Or.inr (Or.inl (by decide)))).2.1⟩

/-- Claim C8.  Construction fails with "waitlistId is required" when the
waitlist id is empty or absent, with "apiKey is required" when the api key is
empty or absent (and the waitlist id is not), and otherwise resolves every
absent optional field to its documented default.  The constructor is a pure
function of the partial configuration, so no network call is involved. -/
theorem c8_config_resolution :
    (∀ c : WaitlyConfig, falsyStr c.waitlistId = true →
        resolveConfig c = .error "waitlistId is required") ∧
    (∀ c : WaitlyConfig, falsyStr c.waitlistId = false → falsyStr c.apiKey = true →
        resolveConfig c = .error "apiKey is required") ∧
    (∀ w k : String, w ≠ "" → k ≠ "" →
        resolveConfig { waitlistId := some w, apiKey := some k } =
          .ok { waitlistId := w, apiKey := k, apiUrl := "https://www.gowaitly.com",
                timeout := 10000, retryAttempts := 3, headers := [] }) := by
  refine ⟨?_, ?_, ?_⟩
  · intro c h
    simp [resolveConfig, h]
  · intro c h1 h2
    simp [resolveConfig, h1, h2]
  · intro w k hw hk
    simp [resolveConfig, falsyStr, jsOrStr, jsOrInt, hw, hk]

/-- Witness for `c8_config_resolution` at concrete configurations. -/
theorem c8_config_resolution_witness :
    resolveConfig { waitlistId := some "", apiKey := some "k" } =
      .error "waitlistId is required" ∧
    resolveConfig { waitlistId := some "w", apiKey := some "k" } =
      .ok { waitlistId := "w", apiKey := "k", apiUrl := "https://www.gowaitly.com",
            timeout := 10000, retryAttempts := 3, headers := [] } :=
  ⟨c8_config_resolution.1 _ (by decide),
   c8_config_resolution.2.2 "w" "k" (by decide) (by decide)⟩

/-- Claim C9.  For every run of the executor (under the specification's
domain of at least one attempt, and a fresh request id), the final registry
no longer holds the request's handle, whatever the outcome; and cancel-all
empties the registry and is idempotent (calling it on an empty registry is a
no-op). -/
theorem c9_registry_invariant (cfg : ResolvedConfig) (t : Transport) (id : String)
    (reg : List String) (hid : id ∉ reg) (hr : 1 ≤ cfg.retryAttempts.toNat) :
    (request cfg t id reg).registry = reg ∧
    id ∉ (request cfg t id reg).registry ∧
    cancelAllRequests reg = [] ∧
    cancelAllRequests (cancelAllRequests reg) = cancelAllRequests reg := by
  have h := request_registry_clean cfg t id reg hid hr
  exact ⟨h, by rw [h]; exact hid, rfl, rfl⟩

/-- Witness for `c9_registry_invariant`: a fresh id over an empty registry. -/
theorem c9_registry_invariant_witness :
    (request cfgStd tOk "rid" []).registry = [] :=
  (c9_registry_invariant cfgStd tOk "rid" [] (by simp) (by decide)).1

/-- Claim C10.  A present-but-falsy optional field (`retryAttempts = 0`,
`timeout = 0`, `apiUrl = ""`) is silently replaced by its default (3, 10000,
the default URL), while a negative `retryAttempts` is kept as given.  (The
model's numbers are integers; non-integer values are outside the embedding.) -/
theorem c10_falsy_optionals_defaulted (w k : String) (r : Int)
    (hw : w ≠ "") (hk : k ≠ "") (hr : r < 0) :
    resolveConfig { waitlistId := some w, apiKey := some k, apiUrl := some "",
                    timeout := some 0, retryAttempts := some 0 } =
      .ok { waitlistId := w, apiKey := k, apiUrl := "https://www.gowaitly.com",
            timeout := 10000, retryAttempts := 3, headers := [] } ∧
    resolveConfig { waitlistId := some w, apiKey := some k, retryAttempts := some r } =
      .ok { waitlistId := w, apiKey := k, apiUrl := "https://www.gowaitly.com",
            timeout := 10000, retryAttempts := r, headers := [] } := by
  have hr0 : r ≠ 0 := by omega
  constructor <;> simp [resolveConfig, falsyStr, jsOrStr, jsOrInt, hw, hk, hr0]

/-- Witness for `c10_falsy_optionals_defaulted` at concrete values. -/
theorem c10_falsy_optionals_defaulted_witness :
    resolveConfig { waitlistId := some "w", apiKey := some "k",
                    retryAttempts := some (-5) } =
      .ok { waitlistId := "w", apiKey := "k", apiUrl := "https://www.gowaitly.com",
            timeout := 10000, retryAttempts := -5, headers := [] } :=
  (c10_falsy_optionals_defaulted "w" "k" (-5) (by decide) (by decide) (by decide)).2

end Waitly
